import Mathlib

/- Shallow embedding of the server core of the remote watering system
   (src/server.js, the enhanced-WebSocket server variant at lines ~1280-2650):
   the session hub, the command router and the recurring alarm engine.

   Conventions of the embedding:
   * Timestamps are `Nat` milliseconds in a fixed-offset locale whose epoch
     (t = 0) falls on a Sunday midnight; `Date` arithmetic (`setDate`,
     `setHours`, `getDay`) is modelled on that clock.  DST is out of scope.
   * Mongo documents are Lean structures, collections are `List`s in insertion
     order; `findOne`/`findOneAndUpdate` are `List.find?`/pointwise update.
   * Fallible external effects (a WebSocket send, a Store call) are modelled by
     explicit boolean/Option parameters that say whether the effect succeeded.
-/

/-- Milliseconds per day. -/
def msPerDay : Nat := 86400000

/-- Model of `Date.prototype.getDay()`: weekday index, 0 = Sunday ... 6 = Saturday.
    The model epoch is a Sunday midnight, so the weekday is the day count
    since the epoch modulo 7. -/
def jsGetDay (t : Nat) : Nat := (t / msPerDay) % 7

/-- The probe date built inside `calculateNextExecution`:
    `const checkDate = new Date(now); checkDate.setDate(now.getDate() + i);
     checkDate.setHours(hours, minutes, 0, 0)` — i.e. the start of `now`'s
    calendar day, plus `i` days, plus the time-of-day `tod` (in ms). -/
def checkDate (now tod i : Nat) : Nat :=
  (now / msPerDay) * msPerDay + i * msPerDay + tod

/-- Milliseconds into the day denoted by a clock reading `hours:minutes`. -/
def timeOfDayMs (hours minutes : Nat) : Nat :=
  hours * 3600000 + minutes * 60000

/-- The weekday names accepted by the alarm schema
    (`days: [{ enum: ['monday', ..., 'sunday'] }]`). -/
inductive Weekday where
  | monday | tuesday | wednesday | thursday | friday | saturday | sunday
deriving DecidableEq, Repr

/-- The `dayMap` table of `calculateNextExecution`:
    `{'sunday': 0, 'monday': 1, ..., 'saturday': 6}`. -/
def dayMap : Weekday → Nat
  | .sunday => 0
  | .monday => 1
  | .tuesday => 2
  | .wednesday => 3
  | .thursday => 4
  | .friday => 5
  | .saturday => 6

/-- Decimal value of a digit character, `none` when the character is not a
    decimal digit. -/
def digitVal? (c : Char) : Option Nat :=
  if 48 ≤ c.toNat ∧ c.toNat ≤ 57 then some (c.toNat - 48) else none

/-- Accumulating decimal parse of a character list; fails on any non-digit. -/
def parseDigitsAux : List Char → Nat → Option Nat
  | [], acc => some acc
  | c :: cs, acc =>
    match digitVal? c with
    | some d => parseDigitsAux cs (acc * 10 + d)
    | none => none

/-- Model of `Number(s)` on a non-empty string of decimal digits (which covers every
    component of a valid `HH:MM` clock string); `none` models the strings on
    which `Number` does not yield such a numeral — and hence an invalid `Date`
    downstream. -/
def parseDigits (l : List Char) : Option Nat :=
  match l with
  | [] => none
  | _ => parseDigitsAux l 0

/-- Model of `time.split(':')` on the character list of the string. -/
def splitOnColon : List Char → List (List Char)
  | [] => [[]]
  | c :: cs =>
    if c = ':' then [] :: splitOnColon cs
    else
      match splitOnColon cs with
      | r :: rs => (c :: r) :: rs
      | [] => [[c]]

/-- Model of `const [hours, minutes] = time.split(':').map(Number)`: destructure the
    first two components (any further components are ignored by the
    destructuring) and read each with `Number`. -/
def parseTime (time : String) : Option (Nat × Nat) :=
  match splitOnColon time.data with
  | hs :: ms :: _ => (parseDigits hs).bind fun h => (parseDigits ms).map fun m => (h, m)
  | _ => none

/-- The scan of `calculateNextExecution` after the clock has been parsed:
    `targetDays = days.map(day => dayMap[day]).sort((a, b) => a - b)`;
    then `for (i = 0; i < 7; i++)` return the first `checkDate` whose weekday
    is in `targetDays`, skipping `i === 0` when `checkDate <= now`;
    falling back to `nextWeek` = today + 7 days at the given time
    (which equals `checkDate now tod 7`). -/
def calculateNextExecutionAt (hours minutes : Nat) (days : List Weekday) (now : Nat) : Nat :=
  let targetDays := List.insertionSort (· ≤ ·) (days.map dayMap)
  let tod := timeOfDayMs hours minutes
  match (List.range 7).find? (fun i =>
      targetDays.contains (jsGetDay (checkDate now tod i)) &&
      !(i == 0 && decide (checkDate now tod i ≤ now))) with
  | some i => checkDate now tod i
  | none => checkDate now tod 7

/-- The source function `calculateNextExecution(time, days)` read at clock value `now`;
    `none` models the invalid-`Date` outcome on an unparsable `time`. -/
def calculateNextExecution (time : String) (days : List Weekday) (now : Nat) : Option Nat :=
  (parseTime time).map fun p => calculateNextExecutionAt p.1 p.2 days now

/-- A row of the `devices` collection (`deviceSchema`). -/
structure DeviceDoc where
  deviceId : String
  ip : Option String
  lastSeen : Nat
  status : String
  pumpStatus : String
  connectionAttempts : Nat
  lastConnectionError : Option String
  wsConnections : Nat
  lastHeartbeat : Option Nat
deriving DecidableEq, Repr

/-- Model of `Device.findOne({ deviceId })`: Mongo string match is exact (and in
    particular case-sensitive); the collection is scanned in insertion
    order. -/
def findDevice (devices : List DeviceDoc) (id : String) : Option DeviceDoc :=
  devices.find? fun d => d.deviceId == id

/-- The fields written by a successful `device_join`'s
    `Device.findOneAndUpdate({deviceId}, {...status:'online'..., $inc:
    {wsConnections: 1}}, {upsert: true})`. -/
def joinRowUpdate (ip : String) (now : Nat) (d : DeviceDoc) : DeviceDoc :=
  { d with status := "online", lastSeen := now, lastHeartbeat := some now,
           ip := some ip, connectionAttempts := 0, lastConnectionError := none,
           wsConnections := d.wsConnections + 1 }

/-- The upsert performed by `device_join`: update the (first) row matching
    `deviceId` exactly, or insert a fresh row built from the schema defaults
    plus the update document. -/
def storeJoinUpdate (devices : List DeviceDoc) (deviceId ip : String) (now : Nat) :
    List DeviceDoc :=
  if devices.any (fun d => d.deviceId == deviceId) then
    devices.map fun d => if d.deviceId == deviceId then joinRowUpdate ip now d else d
  else
    devices ++ [{ deviceId := deviceId, ip := some ip, lastSeen := now,
                  status := "online", pumpStatus := "idle", connectionAttempts := 0,
                  lastConnectionError := none, wsConnections := 1,
                  lastHeartbeat := some now }]

/-- The persisted `wsConnections` counter of a device (0 when no row exists). -/
def wsCount (devices : List DeviceDoc) (id : String) : Nat :=
  match findDevice devices id with
  | some d => d.wsConnections
  | none => 0

/-- Route `POST /api/devices/register`: find the row matching `deviceId` exactly;
    update it in place when present, otherwise append a new row whose
    `deviceId` field is the string exactly as supplied in the body (the route
    applies no case normalization).  Returns the new collection. -/
def registerDevice (devices : List DeviceDoc) (deviceId ip : String) (now : Nat) :
    List DeviceDoc :=
  match findDevice devices deviceId with
  | some _ =>
    devices.map fun d =>
      if d.deviceId == deviceId then
        { d with ip := some ip, lastSeen := now, status := "online",
                 connectionAttempts := 0, lastConnectionError := none }
      else d
  | none =>
    devices ++ [{ deviceId := deviceId, ip := some ip, lastSeen := now,
                  status := "online", pumpStatus := "idle",
                  connectionAttempts := 0, lastConnectionError := none,
                  wsConnections := 0, lastHeartbeat := none }]

/-- In-memory per-session record kept in the `connectedDevices` map.
    `wsId` identifies the transport handle (`ws`); `wsOpen` models
    `ws.readyState === WebSocket.OPEN`. -/
structure ConnInfo where
  wsId : Nat
  wsOpen : Bool
  joinedAt : Nat
  lastSeen : Nat
  clientIP : String
  reconnectCount : Nat
deriving DecidableEq, Repr

/-- Map read `connectedDevices.get(deviceId)`. -/
def mapGet (m : List (String × ConnInfo)) (k : String) : Option ConnInfo :=
  (m.find? fun p => p.1 == k).map fun p => p.2

/-- Map removal `connectedDevices.delete(deviceId)`. -/
def mapDelete (m : List (String × ConnInfo)) (k : String) : List (String × ConnInfo) :=
  m.filter fun p => !(p.1 == k)

/-- Map write `connectedDevices.set(deviceId, info)`: replace in place when the key is
    present (JS `Map` keeps the original insertion position), else append. -/
def mapSet (m : List (String × ConnInfo)) (k : String) (v : ConnInfo) :
    List (String × ConnInfo) :=
  if m.any (fun p => p.1 == k) then
    m.map fun p => if p.1 == k then (k, v) else p
  else m ++ [(k, v)]

/-- The shared mutable state touched by `handleDeviceJoin`: the in-memory
    session map, the `connectionStats.deviceConnections` counter, and the
    persisted `devices` collection. -/
structure HubState where
  connectedDevices : List (String × ConnInfo)
  deviceConnections : Int
  devices : List DeviceDoc
deriving DecidableEq, Repr

/-- One inbound `device_join{deviceId}` from transport handle `wsId` observed
    at clock value `now` from address `clientIP`. -/
structure JoinEvent where
  deviceId : String
  wsId : Nat
  clientIP : String
  now : Nat
deriving DecidableEq, Repr

/-- Observable effects of one `handleDeviceJoin` call: the handle closed with
    `'New connection established'` (if any), whether the `device_joined`
    confirmation was sent, whether an `error` frame was sent, and whether the
    `device_connected` broadcast went out to dashboards. -/
structure JoinEffects where
  closedOld : Option Nat
  confirmation : Bool
  errorFrame : Bool
  broadcastConnected : Bool
deriving DecidableEq, Repr

/-- Handler `handleDeviceJoin(ws, data, clientIP)`.  `storeFails` is `some msg` when
    the `Device.findOneAndUpdate` upsert throws with message `msg` (the
    Store-transient case) and `none` when it succeeds.  Steps, in source
    order: evict an existing session bound to the same `deviceId` on a
    different handle (closing it only when its `readyState` is OPEN); insert
    the new session record into the map with
    `reconnectCount = old.reconnectCount + 1` (0 without a prior session);
    only then run the Store upsert.  On a Store failure the catch block
    attempts a second update that touches only `connectionAttempts`,
    `lastConnectionError` and `lastSeen`, and sends an `error` frame; the
    session just inserted into the map is not rolled back. -/
def handleDeviceJoin (s : HubState) (e : JoinEvent) (storeFails : Option String) :
    HubState × JoinEffects :=
  let existing := mapGet s.connectedDevices e.deviceId
  let evict : Bool :=
    match existing with
    | some old => old.wsId != e.wsId
    | none => false
  let closedOld : Option Nat :=
    match existing with
    | some old => if old.wsId != e.wsId && old.wsOpen then some old.wsId else none
    | none => none
  let devices1 := if evict then mapDelete s.connectedDevices e.deviceId
                  else s.connectedDevices
  let stats1 : Int := if evict then s.deviceConnections - 1 else s.deviceConnections
  let info : ConnInfo :=
    { wsId := e.wsId, wsOpen := true, joinedAt := e.now, lastSeen := e.now,
      clientIP := e.clientIP,
      reconnectCount :=
        match existing with
        | some old => old.reconnectCount + 1
        | none => 0 }
  let devices2 := mapSet devices1 e.deviceId info
  let stats2 := stats1 + 1
  match storeFails with
  | some msg =>
    ({ connectedDevices := devices2, deviceConnections := stats2,
       devices := s.devices.map fun d =>
         if d.deviceId == e.deviceId then
           { d with connectionAttempts := d.connectionAttempts + 1,
                    lastConnectionError := some msg, lastSeen := e.now }
         else d },
     { closedOld := closedOld, confirmation := false, errorFrame := true,
       broadcastConnected := false })
  | none =>
    ({ connectedDevices := devices2, deviceConnections := stats2,
       devices := storeJoinUpdate s.devices e.deviceId e.clientIP e.now },
     { closedOld := closedOld, confirmation := true, errorFrame := false,
       broadcastConnected := true })

/-- A sequence of successful admits, processed in arrival order. -/
def admitAll (s : HubState) (events : List JoinEvent) : HubState :=
  events.foldl (fun st e => (handleDeviceJoin st e none).1) s

/-- The id `commandId: \x60cmd_${Date.now()}\x60` — the prefix `cmd_` followed by the
    decimal rendering of the current clock value in milliseconds. -/
def waterCommandId (t : Nat) : String := "cmd_" ++ Nat.repr t

/-- The command ids produced by a sequence of issuances whose observed
    `Date.now()` readings are `times`. -/
def commandIdsOf (times : List Nat) : List String := times.map waterCommandId

/-- The `commandData` envelope of the manual water command
    (`{action, duration: duration || 0, commandId, timestamp}`);
    `timestamp` is kept as the clock value. -/
structure CommandData where
  action : String
  duration : Nat
  commandId : String
  timestamp : Nat
deriving DecidableEq, Repr

/-- Response of an HTTP route: status code plus the JSON fields the water
    route can emit (`success`, `error`, `command`). -/
structure RouteResponse where
  status : Nat
  success : Bool
  error : Option String
  command : Option CommandData
deriving DecidableEq, Repr

/-- Body of `POST /api/devices/:deviceId/water`; a `none` field was omitted
    from the JSON body.  (`duration || 0` also sends a present-but-zero
    duration to 0, which coincides with `Option.getD 0`.) -/
structure WaterReq where
  action : Option String
  duration : Option Nat
deriving DecidableEq, Repr

/-- Route `POST /api/devices/:deviceId/water`.  `sendOk` is the return value of
    `sendToDevice` (true only when a live session exists in the map and the
    transport write succeeded); `dbFails` models the `Device.findOne` call
    throwing, which the route's catch turns into a 500. -/
def waterRoute (deviceId : String) (body : WaterReq) (devices : List DeviceDoc)
    (sendOk : Bool) (dbFails : Bool) (now : Nat) : RouteResponse :=
  match body.action with
  | none => { status := 400, success := false, error := some "Action is required",
              command := none }
  | some act =>
    if dbFails then
      { status := 500, success := false,
        error := some "Failed to send water command", command := none }
    else
      match findDevice devices deviceId with
      | none => { status := 404, success := false,
                  error := some "Device not found", command := none }
      | some d =>
        if d.status != "online" then
          { status := 409, success := false,
            error := some "Device is offline", command := none }
        else
          let cmd : CommandData :=
            { action := act, duration := body.duration.getD 0,
              commandId := waterCommandId now, timestamp := now }
          if sendOk then
            { status := 200, success := true, error := none, command := some cmd }
          else
            { status := 409, success := false,
              error := some "Device is not connected via WebSocket", command := none }

/-- Payload of a dashboard `manual_command` frame. -/
structure ManualCmd where
  deviceId : Option String
  action : Option String
  duration : Option Nat
deriving DecidableEq, Repr

/-- Outcome of `handleManualCommand`: the reply frame type written back to
    the dashboard, its error text if any, and the `water_command` envelope
    actually delivered to the device (if any). -/
structure ManualOutcome where
  replyType : String
  error : Option String
  sent : Option CommandData
deriving DecidableEq, Repr

/-- Handler `handleManualCommand(ws, data)`: validate presence of `deviceId` and
    `action`; look the device up in the Store; refuse unless
    `status === 'online'`; build `{action, duration: duration || 0,
    commandId: \x60cmd_${Date.now()}\x60, timestamp}` and hand it to
    `sendToDevice`; reply `command_sent` on success, an `error` frame
    otherwise. -/
def handleManualCommand (data : ManualCmd) (devices : List DeviceDoc)
    (sendOk : Bool) (now : Nat) : ManualOutcome :=
  match data.deviceId, data.action with
  | some did, some act =>
    (match findDevice devices did with
     | none => { replyType := "error", error := some "Device not found", sent := none }
     | some d =>
       if d.status != "online" then
         { replyType := "error", error := some "Device is offline", sent := none }
       else
         let cmd : CommandData :=
           { action := act, duration := data.duration.getD 0,
             commandId := waterCommandId now, timestamp := now }
         if sendOk then
           { replyType := "command_sent", error := none, sent := some cmd }
         else
           { replyType := "error",
             error := some "Failed to send command - device not connected via WebSocket",
             sent := none })
  | _, _ =>
    { replyType := "error", error := some "Device ID and action are required",
      sent := none }

/-- The `duration` bounds of the schedule/alarm schema
    (`min: 1000, max: 300000`). -/
def scheduleDurationOk (d : Nat) : Bool := 1000 ≤ d && d ≤ 300000

/-- A row of the `alarms` collection (the `Alarm` model over
    `scheduleSchema`).  `nextExecution` is `none` while unset. -/
structure AlarmDoc where
  id : String
  deviceId : String
  name : String
  time : String
  days : List Weekday
  duration : Nat
  isActive : Bool
  lastExecuted : Option Nat
  nextExecution : Option Nat
  executionCount : Nat
deriving DecidableEq, Repr

/-- The tick query of the `'check alarms'` job:
    `Alarm.find({isActive: true, nextExecution: {$lte: now}})`.
    No sort is applied, so the rows come back in the collection's natural
    (insertion) order; `$lte` does not match a missing `nextExecution`. -/
def findDueAlarms (alarms : List AlarmDoc) (now : Nat) : List AlarmDoc :=
  alarms.filter fun a =>
    a.isActive &&
      match a.nextExecution with
      | some t => decide (t ≤ now)
      | none => false

/-- The envelope sent by `executeAlarm`
    (`{action:'water', duration, alarmId, alarmName, commandId}`). -/
structure AlarmCommand where
  action : String
  duration : Nat
  alarmId : String
  alarmName : String
  commandId : String
deriving DecidableEq, Repr

/-- A broadcast emitted to all dashboards during alarm execution. -/
structure AlarmBroadcast where
  type : String
  deviceId : String
  alarmId : String
  reason : Option String
deriving DecidableEq, Repr

/-- Result of one `executeAlarm(alarm)` call: the saved alarm row, the
    `water_command` delivered to the device (if any), and the broadcast
    fanned out to dashboards. -/
structure ExecOutcome where
  alarm : AlarmDoc
  sent : Option AlarmCommand
  broadcast : AlarmBroadcast
deriving DecidableEq, Repr

/-- Engine step `executeAlarm(alarm)` at clock value `now`.  `device` is the result of
    `Device.findOne({deviceId: alarm.deviceId})`; `sendOk` is the result of
    `sendToDevice`.  If the device is absent or not `'online'`, the alarm is
    advanced (`nextExecution = calculateNextExecution(...)`) without touching
    `lastExecuted`/`executionCount`, nothing is sent, and `alarm_missed` with
    reason `'Device offline'` is broadcast.  Otherwise the command is
    dispatched; on success `lastExecuted`/`executionCount`/`nextExecution`
    are updated and `alarm_executed` broadcast; on a failed send the alarm is
    still advanced and `alarm_failed` broadcast. -/
def executeAlarm (alarm : AlarmDoc) (device : Option DeviceDoc) (sendOk : Bool)
    (now : Nat) : ExecOutcome :=
  let offline : Bool :=
    match device with
    | none => true
    | some d => d.status != "online"
  if offline then
    { alarm := { alarm with
        nextExecution := calculateNextExecution alarm.time alarm.days now },
      sent := none,
      broadcast := { type := "alarm_missed", deviceId := alarm.deviceId,
                     alarmId := alarm.id, reason := some "Device offline" } }
  else
    let cmd : AlarmCommand :=
      { action := "water", duration := alarm.duration, alarmId := alarm.id,
        alarmName := alarm.name,
        commandId := "alarm_" ++ alarm.id ++ "_" ++ Nat.repr now }
    if sendOk then
      { alarm := { alarm with
          lastExecuted := some now,
          executionCount := alarm.executionCount + 1,
          nextExecution := calculateNextExecution alarm.time alarm.days now },
        sent := some cmd,
        broadcast := { type := "alarm_executed", deviceId := alarm.deviceId,
                       alarmId := alarm.id, reason := none } }
    else
      { alarm := { alarm with
          nextExecution := calculateNextExecution alarm.time alarm.days now },
        sent := none,
        broadcast := { type := "alarm_failed", deviceId := alarm.deviceId,
                       alarmId := alarm.id, reason := some "Device not connected" } }

/-- The `data` document attached to the periodic job by `POST /api/alarms`:
    `agenda.every('1 minute', 'check alarms', {alarmId, deviceId, name, time,
    days, duration})`. -/
structure JobData where
  alarmId : String
  deviceId : String
  name : String
  time : String
  days : List Weekday
  duration : Nat
deriving DecidableEq, Repr

/-- A persisted Agenda job. -/
structure AgendaJob where
  name : String
  interval : String
  data : JobData
deriving DecidableEq, Repr

/-- Scheduling call `agenda.every(interval, name, data)`: Agenda saves the job
    as a `type: 'single'` job through
    `findOneAndUpdate({name, type: 'single'}, {$set: {...}}, {upsert: true})`,
    i.e. it upserts keyed on the job *name* alone — at most one `single` job
    per name ever exists, and a repeated call overwrites that job's interval
    and data document instead of inserting an additional job. -/
def agendaEvery (jobs : List AgendaJob) (interval jobName : String) (data : JobData) :
    List AgendaJob :=
  if jobs.any (fun j => j.name == jobName) then
    jobs.map fun j =>
      if j.name == jobName then { j with interval := interval, data := data } else j
  else jobs ++ [{ name := jobName, interval := interval, data := data }]

/-- The `agenda.every('1 minute', 'check alarms', {...})` call made by
    `POST /api/alarms` after saving a newly created alarm. -/
def createAlarmJob (jobs : List AgendaJob) (alarm : AlarmDoc) : List AgendaJob :=
  agendaEvery jobs "1 minute" "check alarms"
    { alarmId := alarm.id, deviceId := alarm.deviceId, name := alarm.name,
      time := alarm.time, days := alarm.days, duration := alarm.duration }

/-- Number of periodic `'check alarms'` jobs currently registered. -/
def periodicCheckJobs (jobs : List AgendaJob) : Nat :=
  (jobs.filter fun j => j.name == "check alarms").length


/-- Numeric value of a decimal digit character; left inverse to
    `Nat.digitChar` on digit values, used to reason about `Nat.repr`. -/
def decodeDigit (c : Char) : Nat := c.toNat - 48

/-- Decimal value of a digit-character list; left inverse to
    `Nat.toDigits 10`. -/
def decodeDigits (l : List Char) : Nat :=
  l.foldl (fun a c => a * 10 + decodeDigit c) 0

/-! Concrete fixtures used by witnesses and counterexamples. -/

/-- A persisted device row that is online and has seen 3 connections. -/
def exDevice : DeviceDoc :=
  { deviceId := "DEV", ip := some "10.0.0.4", lastSeen := 0, status := "online",
    pumpStatus := "idle", connectionAttempts := 0, lastConnectionError := none,
    wsConnections := 3, lastHeartbeat := some 0 }

/-- An existing device session on handle 1. -/
def exOldConn : ConnInfo :=
  { wsId := 1, wsOpen := true, joinedAt := 0, lastSeen := 0,
    clientIP := "10.0.0.4", reconnectCount := 0 }

/-- A hub with one live session for `DEV` and one persisted row. -/
def exHub : HubState :=
  { connectedDevices := [("DEV", exOldConn)], deviceConnections := 1,
    devices := [exDevice] }

/-- An empty hub. -/
def exHubEmpty : HubState :=
  { connectedDevices := [], deviceConnections := 0, devices := [] }

/-- A fresh `device_join` for `DEV` arriving on handle 2. -/
def exJoin : JoinEvent :=
  { deviceId := "DEV", wsId := 2, clientIP := "10.0.0.5", now := 1000 }

/-- An active alarm whose `nextExecution` is 100, inserted first. -/
def exAlarmLate : AlarmDoc :=
  { id := "a1", deviceId := "DEV", name := "late", time := "07:00",
    days := [Weekday.monday], duration := 5000, isActive := true,
    lastExecuted := none, nextExecution := some 100, executionCount := 0 }

/-- An active alarm whose `nextExecution` is 50, inserted second. -/
def exAlarmEarly : AlarmDoc :=
  { id := "a2", deviceId := "DEV", name := "early", time := "08:00",
    days := [Weekday.tuesday], duration := 6000, isActive := true,
    lastExecuted := none, nextExecution := some 50, executionCount := 0 }

/-! Helper lemmas. -/

lemma timeOfDayMs_lt (h m : Nat) (hh : h < 24) (hm : m < 60) :
    timeOfDayMs h m < msPerDay := by
  unfold timeOfDayMs msPerDay; omega

lemma checkDate_div (now tod i : Nat) (htod : tod < msPerDay) :
    checkDate now tod i / msPerDay = now / msPerDay + i := by
  unfold checkDate msPerDay at *; omega

lemma checkDate_mod (now tod i : Nat) (htod : tod < msPerDay) :
    checkDate now tod i % msPerDay = tod := by
  unfold checkDate msPerDay at *; omega

lemma jsGetDay_checkDate (now tod i : Nat) (htod : tod < msPerDay) :
    jsGetDay (checkDate now tod i) = (now / msPerDay + i) % 7 := by
  unfold jsGetDay
  rw [checkDate_div now tod i htod]

lemma dayMap_lt (w : Weekday) : dayMap w < 7 := by cases w <;> decide

lemma now_lt_checkDate (now tod i : Nat) (hi : 1 ≤ i) : now < checkDate now tod i := by
  unfold checkDate msPerDay at *; omega

lemma checkDate_lt_8days (now tod i : Nat) (htod : tod < msPerDay) (hi : i ≤ 7) :
    checkDate now tod i < now + 8 * msPerDay := by
  unfold checkDate msPerDay at *; omega

lemma mem_targetDays_iff (days : List Weekday) (x : Nat) :
    x ∈ List.insertionSort (· ≤ ·) (days.map dayMap) ↔ x ∈ days.map dayMap :=
  (List.perm_insertionSort (· ≤ ·) (days.map dayMap)).mem_iff

lemma calculateNextExecutionAt_eq (h m : Nat) (days : List Weekday) (now : Nat) :
    calculateNextExecutionAt h m days now =
      match (List.range 7).find? (fun i =>
          (List.insertionSort (· ≤ ·) (days.map dayMap)).contains
            (jsGetDay (checkDate now (timeOfDayMs h m) i)) &&
          !(i == 0 && decide (checkDate now (timeOfDayMs h m) i ≤ now))) with
      | some i => checkDate now (timeOfDayMs h m) i
      | none => checkDate now (timeOfDayMs h m) 7 := rfl

/-- C1: for every valid `HH:MM` clock string and non-empty weekday set,
`calculateNextExecution` returns a datetime strictly greater than `now` whose
weekday is in the set and whose local time-of-day equals `HH:MM`; today is
skipped when `HH:MM` today is not strictly in the future, and the returned
value exceeds `now` by less than 8 days. -/
theorem calculateNextExecution_future (time : String) (h m : Nat) (days : List Weekday)
    (now : Nat) (hp : parseTime time = some (h, m)) (hh : h < 24) (hm : m < 60)
    (hd : days ≠ []) :
    calculateNextExecution time days now
      = some (calculateNextExecutionAt h m days now) ∧
    now < calculateNextExecutionAt h m days now ∧
    jsGetDay (calculateNextExecutionAt h m days now) ∈ days.map dayMap ∧
    calculateNextExecutionAt h m days now % msPerDay = timeOfDayMs h m ∧
    calculateNextExecutionAt h m days now < now + 8 * msPerDay ∧
    (checkDate now (timeOfDayMs h m) 0 ≤ now →
      now / msPerDay < calculateNextExecutionAt h m days now / msPerDay) := by
  have htod : timeOfDayMs h m < msPerDay := timeOfDayMs_lt h m hh hm
  refine ⟨by simp [calculateNextExecution, hp], ?_⟩
  rw [calculateNextExecutionAt_eq h m days now]
  cases hfind : (List.range 7).find? (fun i =>
      (List.insertionSort (· ≤ ·) (days.map dayMap)).contains
        (jsGetDay (checkDate now (timeOfDayMs h m) i)) &&
      !(i == 0 && decide (checkDate now (timeOfDayMs h m) i ≤ now))) with
  | some i =>
    dsimp only
    have hpi := List.find?_some hfind
    have hi7 : i < 7 := List.mem_range.mp (List.mem_of_find?_eq_some hfind)
    rw [Bool.and_eq_true] at hpi
    obtain ⟨hmem, hskip⟩ := hpi
    rw [Bool.not_eq_true', Bool.and_eq_false_iff] at hskip
    have hmem' : jsGetDay (checkDate now (timeOfDayMs h m) i) ∈ days.map dayMap :=
      (mem_targetDays_iff days _).mp (List.elem_iff.mp hmem)
    have hfut : now < checkDate now (timeOfDayMs h m) i := by
      rcases Nat.eq_zero_or_pos i with hi0 | hipos
      · subst hi0
        rcases hskip with hski | hski
        · simp at hski
        · rw [decide_eq_false_iff_not] at hski; omega
      · exact now_lt_checkDate now (timeOfDayMs h m) i hipos
    refine ⟨hfut, hmem', checkDate_mod now (timeOfDayMs h m) i htod, ?_, ?_⟩
    · exact checkDate_lt_8days now (timeOfDayMs h m) i htod (by omega)
    · intro hpast
      have hine : i ≠ 0 := by
        intro hi0; subst hi0
        rcases hskip with hski | hski
        · simp at hski
        · rw [decide_eq_false_iff_not] at hski; omega
      rw [checkDate_div now (timeOfDayMs h m) i htod]
      omega
  | none =>
    dsimp only
    have hnone := List.find?_eq_none.mp hfind
    -- pick a weekday of the set; its probe day was rejected by the scan,
    -- which forces the rejection clause i = 0 with today's clock time past
    obtain ⟨w, hw⟩ : ∃ w, w ∈ days := by
      cases days with
      | nil => exact absurd rfl hd
      | cons a l => exact ⟨a, List.mem_cons_self a l⟩
    have hw0 : dayMap w ∈ days.map dayMap := List.mem_map_of_mem dayMap hw
    have hwlt : dayMap w < 7 := dayMap_lt w
    have hi0lt : (dayMap w + 7 - (now / msPerDay) % 7) % 7 < 7 :=
      Nat.mod_lt _ (by omega)
    have hhit : (now / msPerDay + (dayMap w + 7 - (now / msPerDay) % 7) % 7) % 7
        = dayMap w := by omega
    have hrej := hnone _ (List.mem_range.mpr hi0lt)
    rw [Bool.not_eq_true, Bool.and_eq_false_iff] at hrej
    have hmemi : (List.insertionSort (· ≤ ·) (days.map dayMap)).contains
        (jsGetDay (checkDate now (timeOfDayMs h m)
          ((dayMap w + 7 - (now / msPerDay) % 7) % 7))) = true := by
      rw [jsGetDay_checkDate now (timeOfDayMs h m) _ htod, hhit]
      exact List.elem_iff.mpr ((mem_targetDays_iff days _).mpr hw0)
    have hforce : (dayMap w + 7 - (now / msPerDay) % 7) % 7 = 0 ∧
        checkDate now (timeOfDayMs h m)
          ((dayMap w + 7 - (now / msPerDay) % 7) % 7) ≤ now := by
      rcases hrej with hcontra | hclause
      · rw [hmemi] at hcontra; exact absurd hcontra (by simp)
      · rw [Bool.not_eq_false', Bool.and_eq_true] at hclause
        obtain ⟨hz, hle⟩ := hclause
        exact ⟨by simpa using hz, by simpa using hle⟩
    obtain ⟨hz, hpast⟩ := hforce
    have hw0d0 : dayMap w = (now / msPerDay) % 7 := by omega
    rw [hz] at hpast
    refine ⟨?_, ?_, checkDate_mod now (timeOfDayMs h m) 7 htod, ?_, ?_⟩
    · exact now_lt_checkDate now (timeOfDayMs h m) 7 (by omega)
    · rw [jsGetDay_checkDate now (timeOfDayMs h m) 7 htod]
      have h7 : (now / msPerDay + 7) % 7 = dayMap w := by omega
      rw [h7]; exact hw0
    · exact checkDate_lt_8days now (timeOfDayMs h m) 7 htod (by omega)
    · intro hp7
      rw [checkDate_div now (timeOfDayMs h m) 7 htod]
      omega

/-- C1 witness: the spec's own example — alarm at Monday 07:00 created late on
a Saturday evening fires strictly in the future, on a Monday, at 07:00, and
less than 8 days out. -/
theorem calculateNextExecution_future_witness :
    calculateNextExecution "07:00" [Weekday.monday] (6 * msPerDay + timeOfDayMs 23 59)
      = some (calculateNextExecutionAt 7 0 [Weekday.monday]
          (6 * msPerDay + timeOfDayMs 23 59)) ∧
    6 * msPerDay + timeOfDayMs 23 59
      < calculateNextExecutionAt 7 0 [Weekday.monday]
          (6 * msPerDay + timeOfDayMs 23 59) ∧
    jsGetDay (calculateNextExecutionAt 7 0 [Weekday.monday]
        (6 * msPerDay + timeOfDayMs 23 59))
      ∈ [Weekday.monday].map dayMap ∧
    calculateNextExecutionAt 7 0 [Weekday.monday]
        (6 * msPerDay + timeOfDayMs 23 59) % msPerDay = timeOfDayMs 7 0 ∧
    calculateNextExecutionAt 7 0 [Weekday.monday]
        (6 * msPerDay + timeOfDayMs 23 59)
      < 6 * msPerDay + timeOfDayMs 23 59 + 8 * msPerDay ∧
    (checkDate (6 * msPerDay + timeOfDayMs 23 59) (timeOfDayMs 7 0) 0
        ≤ 6 * msPerDay + timeOfDayMs 23 59 →
      (6 * msPerDay + timeOfDayMs 23 59) / msPerDay
        < calculateNextExecutionAt 7 0 [Weekday.monday]
            (6 * msPerDay + timeOfDayMs 23 59) / msPerDay) :=
  calculateNextExecution_future "07:00" 7 0 [Weekday.monday]
    (6 * msPerDay + timeOfDayMs 23 59) (by decide) (by decide) (by decide) (by decide)

lemma toDigitsCore_append (f : Nat) : ∀ (n : Nat) (acc : List Char),
    Nat.toDigitsCore 10 f n acc = Nat.toDigitsCore 10 f n [] ++ acc := by
  induction f with
  | zero => intro n acc; simp [Nat.toDigitsCore]
  | succ f ih =>
    intro n acc
    simp only [Nat.toDigitsCore]
    by_cases h : n / 10 = 0
    · simp [h]
    · simp only [h, ite_false]
      rw [ih (n / 10) (Nat.digitChar (n % 10) :: acc),
          ih (n / 10) [Nat.digitChar (n % 10)]]
      simp

lemma toDigitsCore_fuel : ∀ (f₁ f₂ n : Nat) (acc : List Char), 0 < f₁ → 0 < f₂ →
    n < 10 ^ f₁ → n < 10 ^ f₂ →
    Nat.toDigitsCore 10 f₁ n acc = Nat.toDigitsCore 10 f₂ n acc := by
  intro f₁
  induction f₁ with
  | zero => intro f₂ n acc h1; omega
  | succ e ih =>
    intro f₂ n acc h1 h2 h3 h4
    cases f₂ with
    | zero => omega
    | succ e' =>
      simp only [Nat.toDigitsCore]
      by_cases h : n / 10 = 0
      · simp [h]
      · simp only [h, ite_false]
        have hn10 : 10 ≤ n := by omega
        have he : 0 < e := by
          by_contra hc
          have : e = 0 := by omega
          subst this
          simp at h3
          omega
        have he' : 0 < e' := by
          by_contra hc
          have : e' = 0 := by omega
          subst this
          simp at h4
          omega
        apply ih e' (n / 10) (Nat.digitChar (n % 10) :: acc) he he'
        · have : (10 : Nat) ^ (e + 1) = 10 ^ e * 10 := pow_succ 10 e
          omega
        · have : (10 : Nat) ^ (e' + 1) = 10 ^ e' * 10 := pow_succ 10 e'
          omega

lemma decodeDigit_digitChar (n : Nat) (h : n < 10) :
    decodeDigit (Nat.digitChar n) = n := by
  unfold decodeDigit
  interval_cases n <;> decide

lemma decodeDigits_append_singleton (l : List Char) (c : Char) :
    decodeDigits (l ++ [c]) = decodeDigits l * 10 + decodeDigit c := by
  simp [decodeDigits]

lemma decode_toDigits : ∀ n : Nat, decodeDigits (Nat.toDigits 10 n) = n := by
  intro n
  induction n using Nat.strong_induction_on with
  | _ n ih =>
    unfold Nat.toDigits
    by_cases h : n / 10 = 0
    · have hn : n < 10 := by omega
      have hmod : n % 10 = n := Nat.mod_eq_of_lt hn
      simp only [Nat.toDigitsCore, h, ite_true]
      simp [decodeDigits, hmod, decodeDigit_digitChar n hn]
    · have h10 : 10 ≤ n := by omega
      have hstep : Nat.toDigitsCore 10 (n + 1) n [] =
          Nat.toDigitsCore 10 n (n / 10) [Nat.digitChar (n % 10)] := by
        simp [Nat.toDigitsCore, h]
      have hfuel : Nat.toDigitsCore 10 n (n / 10) [] =
          Nat.toDigitsCore 10 (n / 10 + 1) (n / 10) [] :=
        toDigitsCore_fuel n (n / 10 + 1) (n / 10) [] (by omega) (by omega)
          (lt_of_le_of_lt (Nat.div_le_self n 10) (Nat.lt_pow_self (by omega) n))
          (lt_of_lt_of_le (Nat.lt_pow_self (by omega) (n / 10))
            (Nat.pow_le_pow_right (by omega) (by omega)))
      rw [hstep, toDigitsCore_append, hfuel]
      have hrec : decodeDigits (Nat.toDigitsCore 10 (n / 10 + 1) (n / 10) []) = n / 10 :=
        ih (n / 10) (by omega)
      rw [decodeDigits_append_singleton, hrec,
        decodeDigit_digitChar (n % 10) (Nat.mod_lt n (by omega))]
      omega

lemma natRepr_inj (m n : Nat) (h : Nat.repr m = Nat.repr n) : m = n := by
  have hd : Nat.toDigits 10 m = Nat.toDigits 10 n := congrArg String.data h
  calc m = decodeDigits (Nat.toDigits 10 m) := (decode_toDigits m).symm
    _ = decodeDigits (Nat.toDigits 10 n) := by rw [hd]
    _ = n := decode_toDigits n

/-- C7 counterexample: two distinct command issuances that observe the same
`Date.now()` millisecond (here 1700000000000) receive the *same* commandId, so
uniqueness per process does not hold as stated. -/
theorem waterCommandId_collision :
    commandIdsOf [1700000000000, 1700000000000]
      = [waterCommandId 1700000000000, waterCommandId 1700000000000] ∧
    ¬ (commandIdsOf [1700000000000, 1700000000000]).Nodup :=
  ⟨rfl, by decide⟩

/-- C7 (amended): a commandId is `cmd_` followed by the decimal clock value,
and two issuances receive the same commandId exactly when they observe the
same `Date.now()` millisecond; ids are therefore unique only across issuances
with pairwise distinct clock readings. -/
theorem waterCommandId_unique_iff (t₁ t₂ : Nat) :
    waterCommandId t₁ = "cmd_" ++ Nat.repr t₁ ∧
    (waterCommandId t₁ = waterCommandId t₂ ↔ t₁ = t₂) := by
  refine ⟨rfl, ?_, fun h => by rw [h]⟩
  intro h
  apply natRepr_inj
  have hd := congrArg String.data h
  rw [waterCommandId, waterCommandId, String.data_append, String.data_append] at hd
  have := List.append_cancel_left hd
  exact congrArg List.asString this

/-- C2: when a due alarm fires and its device is absent from the Store or not
online, no water command is sent, `lastExecuted` and `executionCount` are
unchanged, `nextExecution` is advanced to the computed next occurrence, and an
`alarm_missed` broadcast with reason "Device offline" is emitted. -/
theorem executeAlarm_device_offline (alarm : AlarmDoc) (device : Option DeviceDoc)
    (sendOk : Bool) (now : Nat)
    (hoff : device = none ∨ ∃ d, device = some d ∧ d.status ≠ "online") :
    (executeAlarm alarm device sendOk now).sent = none ∧
    (executeAlarm alarm device sendOk now).alarm.lastExecuted = alarm.lastExecuted ∧
    (executeAlarm alarm device sendOk now).alarm.executionCount = alarm.executionCount ∧
    (executeAlarm alarm device sendOk now).alarm.nextExecution
      = calculateNextExecution alarm.time alarm.days now ∧
    (executeAlarm alarm device sendOk now).broadcast
      = { type := "alarm_missed", deviceId := alarm.deviceId,
          alarmId := alarm.id, reason := some "Device offline" } := by
  rcases hoff with h1 | ⟨d, hd, hs⟩
  · subst h1
    simp [executeAlarm]
  · subst hd
    have hb : (d.status != "online") = true := bne_iff_ne.mpr hs
    simp [executeAlarm, hb]

/-- C2 witness: a concrete alarm fired while its device row is missing. -/
theorem executeAlarm_device_offline_witness :
    (executeAlarm
      { id := "a1", deviceId := "STRWSMK1", name := "morning", time := "07:00",
        days := [Weekday.monday], duration := 5000, isActive := true,
        lastExecuted := none, nextExecution := some 0, executionCount := 3 }
      none true (8 * msPerDay)).sent = none ∧
    (executeAlarm
      { id := "a1", deviceId := "STRWSMK1", name := "morning", time := "07:00",
        days := [Weekday.monday], duration := 5000, isActive := true,
        lastExecuted := none, nextExecution := some 0, executionCount := 3 }
      none true (8 * msPerDay)).alarm.lastExecuted = none ∧
    (executeAlarm
      { id := "a1", deviceId := "STRWSMK1", name := "morning", time := "07:00",
        days := [Weekday.monday], duration := 5000, isActive := true,
        lastExecuted := none, nextExecution := some 0, executionCount := 3 }
      none true (8 * msPerDay)).alarm.executionCount = 3 ∧
    (executeAlarm
      { id := "a1", deviceId := "STRWSMK1", name := "morning", time := "07:00",
        days := [Weekday.monday], duration := 5000, isActive := true,
        lastExecuted := none, nextExecution := some 0, executionCount := 3 }
      none true (8 * msPerDay)).alarm.nextExecution
      = calculateNextExecution "07:00" [Weekday.monday] (8 * msPerDay) ∧
    (executeAlarm
      { id := "a1", deviceId := "STRWSMK1", name := "morning", time := "07:00",
        days := [Weekday.monday], duration := 5000, isActive := true,
        lastExecuted := none, nextExecution := some 0, executionCount := 3 }
      none true (8 * msPerDay)).broadcast
      = { type := "alarm_missed", deviceId := "STRWSMK1", alarmId := "a1",
          reason := some "Device offline" } :=
  executeAlarm_device_offline
    { id := "a1", deviceId := "STRWSMK1", name := "morning", time := "07:00",
      days := [Weekday.monday], duration := 5000, isActive := true,
      lastExecuted := none, nextExecution := some 0, executionCount := 3 }
    none true (8 * msPerDay) (Or.inl rfl)

lemma find?_mapSet (ps : List (String × ConnInfo)) (k : String) (v : ConnInfo) :
    (ps.map fun p => if p.1 == k then (k, v) else p).find? (fun p => p.1 == k)
      = if ps.any (fun p => p.1 == k) then some (k, v) else none := by
  induction ps with
  | nil => rfl
  | cons p ps ih =>
    cases hpk : (p.1 == k) with
    | true =>
      simp only [List.map_cons, if_pos hpk, List.find?, beq_self_eq_true,
        List.any_cons, hpk, Bool.true_or, if_true]
    | false =>
      simp only [List.map_cons, hpk, Bool.false_eq_true, if_false, List.find?,
        List.any_cons, Bool.false_or]
      exact ih

lemma find?_none_of_all_false (ps : List (String × ConnInfo)) (k : String)
    (hall : ∀ p ∈ ps, (p.1 == k) = false) :
    ps.find? (fun p => p.1 == k) = none :=
  List.find?_eq_none.mpr fun p hp => by rw [hall p hp]; simp

lemma mapGet_mapSet_self (m : List (String × ConnInfo)) (k : String) (v : ConnInfo) :
    mapGet (mapSet m k v) k = some v := by
  unfold mapSet
  cases hany : m.any (fun p => p.1 == k) with
  | true =>
    rw [if_pos rfl]
    unfold mapGet
    rw [find?_mapSet, if_pos hany]
    rfl
  | false =>
    rw [if_neg (by simp)]
    rw [List.any_eq_false] at hany
    unfold mapGet
    rw [List.find?_append,
      find?_none_of_all_false m k (fun p hp => by
        have := hany p hp
        simpa using this)]
    simp

lemma joinRowUpdate_deviceId (ip : String) (now : Nat) (d : DeviceDoc) :
    (joinRowUpdate ip now d).deviceId = d.deviceId := rfl

lemma find?_map_update (devices : List DeviceDoc) (id : String)
    (f : DeviceDoc → DeviceDoc) (hf : ∀ d, (f d).deviceId = d.deviceId) :
    (devices.map fun d => if d.deviceId == id then f d else d).find?
        (fun d => d.deviceId == id)
      = (devices.find? fun d => d.deviceId == id).map f := by
  induction devices with
  | nil => rfl
  | cons d ds ih =>
    by_cases hd : d.deviceId == id
    · simp only [List.map_cons, if_pos hd, List.find?]
      have : ((f d).deviceId == id) = true := by rw [hf d]; exact hd
      rw [this, hd]
      rfl
    · simp only [List.map_cons, if_neg hd, List.find?]
      rw [Bool.not_eq_true] at hd
      rw [hd]
      exact ih

lemma wsCount_storeJoinUpdate (devices : List DeviceDoc) (id ip : String) (now : Nat) :
    wsCount (storeJoinUpdate devices id ip now) id = wsCount devices id + 1 := by
  unfold storeJoinUpdate
  by_cases hany : devices.any (fun d => d.deviceId == id)
  · rw [if_pos hany]
    unfold wsCount findDevice
    rw [find?_map_update devices id (joinRowUpdate ip now) (joinRowUpdate_deviceId ip now)]
    cases hf : devices.find? (fun d => d.deviceId == id) with
    | some d => rfl
    | none =>
      rw [List.find?_eq_none] at hf
      rw [List.any_eq_true] at hany
      obtain ⟨d, hdm, hdp⟩ := hany
      exact absurd hdp (hf d hdm)
  · rw [if_neg hany]
    rw [Bool.not_eq_true, List.any_eq_false] at hany
    unfold wsCount findDevice
    have hnone : devices.find? (fun d => d.deviceId == id) = none :=
      List.find?_eq_none.mpr fun d hd => by simpa using hany d hd
    rw [List.find?_append, hnone]
    simp

lemma handleDeviceJoin_ok_eq (s : HubState) (e : JoinEvent) :
    handleDeviceJoin s e none =
      ({ connectedDevices :=
           mapSet (if (match mapGet s.connectedDevices e.deviceId with
                       | some old => old.wsId != e.wsId
                       | none => false)
                   then mapDelete s.connectedDevices e.deviceId
                   else s.connectedDevices)
             e.deviceId
             { wsId := e.wsId, wsOpen := true, joinedAt := e.now,
               lastSeen := e.now, clientIP := e.clientIP,
               reconnectCount :=
                 match mapGet s.connectedDevices e.deviceId with
                 | some old => old.reconnectCount + 1
                 | none => 0 },
         deviceConnections :=
           (if (match mapGet s.connectedDevices e.deviceId with
                | some old => old.wsId != e.wsId
                | none => false)
            then s.deviceConnections - 1 else s.deviceConnections) + 1,
         devices := storeJoinUpdate s.devices e.deviceId e.clientIP e.now },
       { closedOld :=
           match mapGet s.connectedDevices e.deviceId with
           | some old => if old.wsId != e.wsId && old.wsOpen then some old.wsId else none
           | none => none,
         confirmation := true, errorFrame := false, broadcastConnected := true }) := rfl

lemma handleDeviceJoin_fail_eq (s : HubState) (e : JoinEvent) (msg : String) :
    handleDeviceJoin s e (some msg) =
      ({ connectedDevices :=
           mapSet (if (match mapGet s.connectedDevices e.deviceId with
                       | some old => old.wsId != e.wsId
                       | none => false)
                   then mapDelete s.connectedDevices e.deviceId
                   else s.connectedDevices)
             e.deviceId
             { wsId := e.wsId, wsOpen := true, joinedAt := e.now,
               lastSeen := e.now, clientIP := e.clientIP,
               reconnectCount :=
                 match mapGet s.connectedDevices e.deviceId with
                 | some old => old.reconnectCount + 1
                 | none => 0 },
         deviceConnections :=
           (if (match mapGet s.connectedDevices e.deviceId with
                | some old => old.wsId != e.wsId
                | none => false)
            then s.deviceConnections - 1 else s.deviceConnections) + 1,
         devices := s.devices.map fun d =>
           if d.deviceId == e.deviceId then
             { d with connectionAttempts := d.connectionAttempts + 1,
                      lastConnectionError := some msg, lastSeen := e.now }
           else d },
       { closedOld :=
           match mapGet s.connectedDevices e.deviceId with
           | some old => if old.wsId != e.wsId && old.wsOpen then some old.wsId else none
           | none => none,
         confirmation := false, errorFrame := true, broadcastConnected := false }) := rfl

lemma wsCount_join (s : HubState) (e : JoinEvent) :
    wsCount (handleDeviceJoin s e none).1.devices e.deviceId
      = wsCount s.devices e.deviceId + 1 := by
  rw [handleDeviceJoin_ok_eq]
  exact wsCount_storeJoinUpdate s.devices e.deviceId e.clientIP e.now

lemma admitAll_wsCount (d : String) (evts : List JoinEvent) :
    ∀ (s : HubState), (∀ ev ∈ evts, ev.deviceId = d) →
    wsCount (admitAll s evts).devices d = wsCount s.devices d + evts.length := by
  induction evts with
  | nil => intro s _; simp [admitAll]
  | cons e es ih =>
    intro s hall
    have hed : e.deviceId = d := hall e (List.mem_cons_self e es)
    have hstep : admitAll s (e :: es) = admitAll (handleDeviceJoin s e none).1 es := rfl
    rw [hstep, ih (handleDeviceJoin s e none).1
      (fun ev hm => hall ev (List.mem_cons_of_mem e hm))]
    rw [← hed, wsCount_join s e]
    simp [List.length_cons]
    omega

/-- C3: on `device_join`, an existing session under the same deviceId on a
different handle is closed (when its transport is still open) and replaced by
the new one; the new session's reconnect count is the old one's plus 1, and 0
when no prior session exists; the persisted `wsConnections` counter grows by 1
on every successful admit, hence is strictly increasing across any sequence of
admits for one device. -/
theorem deviceJoin_supersede_reconnect_counter :
    (∀ (s : HubState) (e : JoinEvent) (old : ConnInfo),
      mapGet s.connectedDevices e.deviceId = some old → old.wsId ≠ e.wsId →
      (handleDeviceJoin s e none).2.closedOld
          = (if old.wsOpen then some old.wsId else none) ∧
      mapGet (handleDeviceJoin s e none).1.connectedDevices e.deviceId
          = some { wsId := e.wsId, wsOpen := true, joinedAt := e.now,
                   lastSeen := e.now, clientIP := e.clientIP,
                   reconnectCount := old.reconnectCount + 1 }) ∧
    (∀ (s : HubState) (e : JoinEvent),
      mapGet s.connectedDevices e.deviceId = none →
      mapGet (handleDeviceJoin s e none).1.connectedDevices e.deviceId
          = some { wsId := e.wsId, wsOpen := true, joinedAt := e.now,
                   lastSeen := e.now, clientIP := e.clientIP,
                   reconnectCount := 0 }) ∧
    (∀ (s : HubState) (e : JoinEvent),
      wsCount (handleDeviceJoin s e none).1.devices e.deviceId
        = wsCount s.devices e.deviceId + 1) ∧
    (∀ (s : HubState) (d : String) (evts : List JoinEvent),
      (∀ ev ∈ evts, ev.deviceId = d) → ∀ n, n < evts.length →
      wsCount (admitAll s (evts.take n)).devices d
        < wsCount (admitAll s (evts.take (n + 1))).devices d) := by
  refine ⟨?_, ?_, ?_, ?_⟩
  · intro s e old hold hne
    rw [handleDeviceJoin_ok_eq]
    dsimp only
    constructor
    · rw [hold]
      have hb : (old.wsId != e.wsId) = true := bne_iff_ne.mpr hne
      dsimp only
      rw [hb]
      cases old.wsOpen <;> simp
    · rw [hold]
      exact mapGet_mapSet_self _ _ _
  · intro s e hold
    rw [handleDeviceJoin_ok_eq]
    dsimp only
    rw [hold]
    exact mapGet_mapSet_self _ _ _
  · intro s e
    exact wsCount_join s e
  · intro s d evts hall n hn
    rw [admitAll_wsCount d (evts.take n) s
        (fun ev hm => hall ev (List.take_subset n evts hm)),
      admitAll_wsCount d (evts.take (n + 1)) s
        (fun ev hm => hall ev (List.take_subset (n + 1) evts hm)),
      List.length_take, List.length_take]
    omega

/-- C3 witness: a supersede on a concrete hub — handle 1 is closed, the new
session carries reconnect count 1, the counter grows from 3 to 4, and the
one-admit sequence strictly increases the counter; on the empty hub the
reconnect count starts at 0. -/
theorem deviceJoin_supersede_reconnect_counter_witness :
    ((handleDeviceJoin exHub exJoin none).2.closedOld
        = (if exOldConn.wsOpen then some exOldConn.wsId else none) ∧
      mapGet (handleDeviceJoin exHub exJoin none).1.connectedDevices exJoin.deviceId
        = some { wsId := exJoin.wsId, wsOpen := true, joinedAt := exJoin.now,
                 lastSeen := exJoin.now, clientIP := exJoin.clientIP,
                 reconnectCount := exOldConn.reconnectCount + 1 }) ∧
    (mapGet (handleDeviceJoin exHubEmpty exJoin none).1.connectedDevices exJoin.deviceId
        = some { wsId := exJoin.wsId, wsOpen := true, joinedAt := exJoin.now,
                 lastSeen := exJoin.now, clientIP := exJoin.clientIP,
                 reconnectCount := 0 }) ∧
    (wsCount (handleDeviceJoin exHub exJoin none).1.devices exJoin.deviceId
        = wsCount exHub.devices exJoin.deviceId + 1) ∧
    (wsCount (admitAll exHub ([exJoin].take 0)).devices "DEV"
        < wsCount (admitAll exHub ([exJoin].take (0 + 1))).devices "DEV") :=
  ⟨deviceJoin_supersede_reconnect_counter.1 exHub exJoin exOldConn (by decide) (by decide),
   deviceJoin_supersede_reconnect_counter.2.1 exHubEmpty exJoin (by decide),
   deviceJoin_supersede_reconnect_counter.2.2.1 exHub exJoin,
   deviceJoin_supersede_reconnect_counter.2.2.2 exHub "DEV" [exJoin]
     (by decide) 0 (by decide)⟩

/-- C10: `device_join` inserts the new session into the in-memory map before
the Store upsert; when the upsert fails, the session stays bound (no
rollback), an error frame is sent instead of the confirmation, no
`device_connected` broadcast goes out, and no persisted row's `status`
changes — so the in-memory connected state and the persisted status can
diverge. -/
theorem deviceJoin_store_failure_no_rollback (s : HubState) (e : JoinEvent)
    (msg : String) :
    (mapGet (handleDeviceJoin s e (some msg)).1.connectedDevices e.deviceId).map
        (fun i => i.wsId) = some e.wsId ∧
    (handleDeviceJoin s e (some msg)).2.errorFrame = true ∧
    (handleDeviceJoin s e (some msg)).2.confirmation = false ∧
    (handleDeviceJoin s e (some msg)).2.broadcastConnected = false ∧
    (handleDeviceJoin s e (some msg)).1.devices.map (fun d => (d.deviceId, d.status))
      = s.devices.map (fun d => (d.deviceId, d.status)) := by
  rw [handleDeviceJoin_fail_eq]
  refine ⟨?_, rfl, rfl, rfl, ?_⟩
  · dsimp only
    rw [mapGet_mapSet_self]
    rfl
  · dsimp only
    rw [List.map_map]
    apply List.map_congr_left
    intro d _
    by_cases hd : d.deviceId = e.deviceId
    · simp [hd]
    · simp [hd]

/-- C4: the water route returns 400 when `action` is missing, 404 when no
Device row exists, 409 when the row's status is not `online`, 409 (with the
not-connected error) when the row is online but the WebSocket send fails, 500
on an internal Store failure, and on success responds `success: true` with
the command envelope. -/
theorem waterRoute_status_map :
    (∀ (id : String) (body : WaterReq) (devices : List DeviceDoc)
        (sendOk dbFails : Bool) (now : Nat),
      body.action = none →
      (waterRoute id body devices sendOk dbFails now).status = 400) ∧
    (∀ (id : String) (body : WaterReq) (devices : List DeviceDoc)
        (sendOk : Bool) (now : Nat) (act : String),
      body.action = some act → findDevice devices id = none →
      (waterRoute id body devices sendOk false now).status = 404) ∧
    (∀ (id : String) (body : WaterReq) (devices : List DeviceDoc)
        (sendOk : Bool) (now : Nat) (act : String) (d : DeviceDoc),
      body.action = some act → findDevice devices id = some d →
      d.status ≠ "online" →
      (waterRoute id body devices sendOk false now).status = 409) ∧
    (∀ (id : String) (body : WaterReq) (devices : List DeviceDoc)
        (now : Nat) (act : String) (d : DeviceDoc),
      body.action = some act → findDevice devices id = some d →
      d.status = "online" →
      waterRoute id body devices false false now =
        { status := 409, success := false,
          error := some "Device is not connected via WebSocket", command := none }) ∧
    (∀ (id : String) (body : WaterReq) (devices : List DeviceDoc)
        (sendOk : Bool) (now : Nat) (act : String),
      body.action = some act →
      (waterRoute id body devices sendOk true now).status = 500) ∧
    (∀ (id : String) (body : WaterReq) (devices : List DeviceDoc)
        (now : Nat) (act : String) (d : DeviceDoc),
      body.action = some act → findDevice devices id = some d →
      d.status = "online" →
      waterRoute id body devices true false now =
        { status := 200, success := true, error := none,
          command := some { action := act, duration := body.duration.getD 0,
                            commandId := waterCommandId now, timestamp := now } }) := by
  refine ⟨?_, ?_, ?_, ?_, ?_, ?_⟩
  · intro id body devices sendOk dbFails now ha
    simp [waterRoute, ha]
  · intro id body devices sendOk now act ha hf
    simp [waterRoute, ha, hf]
  · intro id body devices sendOk now act d ha hf hs
    have hb : (d.status != "online") = true := bne_iff_ne.mpr hs
    simp [waterRoute, ha, hf, hb]
  · intro id body devices now act d ha hf hs
    have hb : (d.status != "online") = false := by simp [hs]
    simp [waterRoute, ha, hf, hb]
  · intro id body devices sendOk now act ha
    simp [waterRoute, ha]
  · intro id body devices now act d ha hf hs
    have hb : (d.status != "online") = false := by simp [hs]
    simp [waterRoute, ha, hf, hb]

/-- C4 witness: each outcome exercised on concrete requests against a store
holding the single online device row `DEV`. -/
theorem waterRoute_status_map_witness :
    (waterRoute "DEV" { action := none, duration := none } [exDevice]
        true false 5 |>.status) = 400 ∧
    (waterRoute "NOPE" { action := some "water", duration := some 5000 } [exDevice]
        true false 5 |>.status) = 404 ∧
    (waterRoute "OFF" { action := some "water", duration := some 5000 }
        [{ exDevice with deviceId := "OFF", status := "offline" }]
        true false 5 |>.status) = 409 ∧
    waterRoute "DEV" { action := some "water", duration := some 5000 } [exDevice]
        false false 5 =
      { status := 409, success := false,
        error := some "Device is not connected via WebSocket", command := none } ∧
    (waterRoute "DEV" { action := some "water", duration := some 5000 } [exDevice]
        true true 5 |>.status) = 500 ∧
    waterRoute "DEV" { action := some "water", duration := some 5000 } [exDevice]
        true false 5 =
      { status := 200, success := true, error := none,
        command := some { action := "water", duration := 5000,
                          commandId := waterCommandId 5, timestamp := 5 } } :=
  ⟨waterRoute_status_map.1 "DEV" _ [exDevice] true false 5 rfl,
   waterRoute_status_map.2.1 "NOPE" _ [exDevice] true 5 "water" rfl (by decide),
   waterRoute_status_map.2.2.1 "OFF" _ _ true 5 "water"
     { exDevice with deviceId := "OFF", status := "offline" } rfl (by decide) (by decide),
   waterRoute_status_map.2.2.2.1 "DEV" _ [exDevice] 5 "water" exDevice rfl
     (by decide) (by decide),
   waterRoute_status_map.2.2.2.2.1 "DEV" _ [exDevice] true 5 "water" rfl,
   waterRoute_status_map.2.2.2.2.2 "DEV" _ [exDevice] 5 "water" exDevice rfl
     (by decide) (by decide)⟩

/-- C9: when the body of the water route or of a dashboard `manual_command`
omits `duration`, the `water_command` envelope dispatched to an online,
connected device carries `duration = 0`, which lies outside the
`[1000, 300000]` range the schedule/alarm schema enforces. -/
theorem missing_duration_sends_zero :
    (∀ (id : String) (devices : List DeviceDoc) (now : Nat) (act : String)
        (d : DeviceDoc),
      findDevice devices id = some d → d.status = "online" →
      (waterRoute id { action := some act, duration := none } devices
          true false now).command =
        some { action := act, duration := 0, commandId := waterCommandId now,
               timestamp := now } ∧
      scheduleDurationOk 0 = false) ∧
    (∀ (did : String) (devices : List DeviceDoc) (now : Nat) (act : String)
        (d : DeviceDoc),
      findDevice devices did = some d → d.status = "online" →
      (handleManualCommand ⟨some did, some act, none⟩ devices true now).sent =
        some { action := act, duration := 0, commandId := waterCommandId now,
               timestamp := now } ∧
      scheduleDurationOk 0 = false) := by
  constructor
  · intro id devices now act d hf hs
    have hb : (d.status != "online") = false := by simp [hs]
    refine ⟨?_, by decide⟩
    simp [waterRoute, hf, hb]
  · intro did devices now act d hf hs
    have hb : (d.status != "online") = false := by simp [hs]
    refine ⟨?_, by decide⟩
    simp [handleManualCommand, hf, hb]

/-- C9 witness: a concrete duration-less water request and manual command to
the online device `DEV` both produce an envelope with duration 0. -/
theorem missing_duration_sends_zero_witness :
    ((waterRoute "DEV" { action := some "water", duration := none } [exDevice]
        true false 77).command =
      some { action := "water", duration := 0, commandId := waterCommandId 77,
             timestamp := 77 } ∧
     scheduleDurationOk 0 = false) ∧
    ((handleManualCommand ⟨some "DEV", some "water", none⟩ [exDevice] true 77).sent =
      some { action := "water", duration := 0, commandId := waterCommandId 77,
             timestamp := 77 } ∧
     scheduleDurationOk 0 = false) :=
  ⟨missing_duration_sends_zero.1 "DEV" [exDevice] 77 "water" exDevice
     (by decide) (by decide),
   missing_duration_sends_zero.2 "DEV" [exDevice] 77 "water" exDevice
     (by decide) (by decide)⟩

/-- C5 counterexample: the tick query applies no sort, so with the alarm due
at 100 inserted before the alarm due at 50, the due list comes back in
insertion order `[100, 50]` — not ascending by `nextExecution`. -/
theorem findDueAlarms_not_sorted :
    (findDueAlarms [exAlarmLate, exAlarmEarly] 100).map (fun a => a.nextExecution)
      = [some 100, some 50] ∧
    ¬ List.Chain' (fun a b => a.nextExecution.getD 0 ≤ b.nextExecution.getD 0)
        (findDueAlarms [exAlarmLate, exAlarmEarly] 100) := by
  refine ⟨rfl, fun hch => ?_⟩
  rw [show findDueAlarms [exAlarmLate, exAlarmEarly] 100
      = [exAlarmLate, exAlarmEarly] from rfl] at hch
  rcases List.chain'_cons.mp hch with ⟨hle, _⟩
  simp [exAlarmLate, exAlarmEarly] at hle

/-- C5 (amended): on every tick the set of alarms processed is exactly the
active alarms whose `nextExecution` is set and `≤ now`, processed in the
store's natural (insertion) order — the query applies no ordering by
`nextExecution`. -/
theorem findDueAlarms_exact_set (alarms : List AlarmDoc) (now : Nat) :
    (findDueAlarms alarms now).Sublist alarms ∧
    ∀ a, a ∈ findDueAlarms alarms now ↔
      (a ∈ alarms ∧ a.isActive = true ∧ ∃ t, a.nextExecution = some t ∧ t ≤ now) := by
  refine ⟨List.filter_sublist alarms, fun a => ?_⟩
  rw [findDueAlarms, List.mem_filter]
  constructor
  · rintro ⟨hm, hp⟩
    rw [Bool.and_eq_true] at hp
    obtain ⟨hact, hdue⟩ := hp
    refine ⟨hm, hact, ?_⟩
    cases hne : a.nextExecution with
    | none => rw [hne] at hdue; simp at hdue
    | some t =>
      rw [hne] at hdue
      simp only [decide_eq_true_eq] at hdue
      exact ⟨t, rfl, hdue⟩
  · rintro ⟨hm, hact, t, hne, hle⟩
    refine ⟨hm, ?_⟩
    rw [Bool.and_eq_true, hne]
    exact ⟨hact, by simpa using hle⟩


/-- C8 counterexample: registering `abc` and then `ABC` creates two distinct
Device rows, and the persisted id of the first is the verbatim `abc`, not its
upper-case form `ABC` — deviceId is neither case-insensitive nor stored
upper-case. -/
theorem deviceId_not_case_insensitive :
    (registerDevice [] "abc" "10.0.0.7" 3).map (fun d => d.deviceId) = ["abc"] ∧
    (registerDevice (registerDevice [] "abc" "10.0.0.7" 3) "ABC" "10.0.0.7" 4).map
        (fun d => d.deviceId) = ["abc", "ABC"] ∧
    "abc" ≠ "ABC" :=
  ⟨rfl, by decide, by decide⟩

/-- C8 (amended): deviceId is matched exactly (case-sensitively) and stored
verbatim: registering an id with no exactly-matching row appends a row whose
persisted `deviceId` is the supplied string unchanged, while registering an
id with an exactly-matching row leaves the set of persisted ids unchanged. -/
theorem registerDevice_exact_verbatim (devices : List DeviceDoc) (id ip : String)
    (now : Nat) :
    (findDevice devices id = none →
      (registerDevice devices id ip now).map (fun d => d.deviceId)
        = devices.map (fun d => d.deviceId) ++ [id]) ∧
    (∀ d₀, findDevice devices id = some d₀ →
      (registerDevice devices id ip now).map (fun d => d.deviceId)
        = devices.map (fun d => d.deviceId)) := by
  constructor
  · intro hf
    rw [registerDevice, hf]
    simp
  · intro d₀ hf
    rw [registerDevice, hf]
    rw [List.map_map]
    apply List.map_congr_left
    intro d _
    by_cases hd : d.deviceId = id
    · simp [hd]
    · simp [hd]

/-- C8 amended witness: a fresh register of `abc` stores `abc` verbatim, and
re-registering `abc` adds no row. -/
theorem registerDevice_exact_verbatim_witness :
    (registerDevice [] "abc" "10.0.0.7" 3).map (fun d => d.deviceId)
      = ([] : List DeviceDoc).map (fun d => d.deviceId) ++ ["abc"] ∧
    (registerDevice (registerDevice [] "abc" "10.0.0.7" 3) "abc" "10.0.0.8" 4).map
        (fun d => d.deviceId)
      = (registerDevice [] "abc" "10.0.0.7" 3).map (fun d => d.deviceId) :=
  ⟨(registerDevice_exact_verbatim [] "abc" "10.0.0.7" 3).1 (by decide),
   (registerDevice_exact_verbatim (registerDevice [] "abc" "10.0.0.7" 3) "abc"
      "10.0.0.8" 4).2
     { deviceId := "abc", ip := some "10.0.0.7", lastSeen := 3,
       status := "online", pumpStatus := "idle", connectionAttempts := 0,
       lastConnectionError := none, wsConnections := 0, lastHeartbeat := none }
     (by decide)⟩


lemma filter_map_length {α : Type} (l : List α) (p : α → Bool) (f : α → α)
    (hf : ∀ x, p (f x) = p x) :
    (List.filter p (l.map fun x => if p x then f x else x)).length
      = (List.filter p l).length := by
  induction l with
  | nil => rfl
  | cons x xs ih =>
    cases hx : p x with
    | true =>
      simp only [List.map_cons, if_pos hx, List.filter_cons, hf, hx, if_true,
        List.length_cons]
      rw [ih]
    | false =>
      simp only [List.map_cons, hx, Bool.false_eq_true, if_false, List.filter_cons]
      exact ih

lemma periodicCheckJobs_update (jobs : List AgendaJob) (iv : String) (d : JobData) :
    periodicCheckJobs (jobs.map fun j =>
        if j.name == "check alarms" then { j with interval := iv, data := d } else j)
      = periodicCheckJobs jobs := by
  unfold periodicCheckJobs
  exact filter_map_length jobs (fun j => j.name == "check alarms")
    (fun j => { j with interval := iv, data := d }) (fun j => rfl)

lemma any_check_of_count_one (jobs : List AgendaJob)
    (h : periodicCheckJobs jobs = 1) :
    jobs.any (fun j => j.name == "check alarms") = true := by
  cases hany : jobs.any (fun j => j.name == "check alarms") with
  | true => rfl
  | false =>
    rw [List.any_eq_false] at hany
    unfold periodicCheckJobs at h
    rw [List.filter_eq_nil_iff.mpr fun j hj => by simpa using hany j hj] at h
    simp at h

lemma createAlarmJob_keeps_one (jobs : List AgendaJob) (a : AlarmDoc)
    (h : periodicCheckJobs jobs = 1) :
    periodicCheckJobs (createAlarmJob jobs a) = 1 := by
  unfold createAlarmJob agendaEvery
  rw [if_pos (any_check_of_count_one jobs h)]
  rw [periodicCheckJobs_update]
  exact h

lemma createAlarmJob_base (a : AlarmDoc) :
    periodicCheckJobs (createAlarmJob [] a) = 1 := rfl

lemma foldl_createAlarmJob_one (alarms : List AlarmDoc) :
    ∀ jobs : List AgendaJob, periodicCheckJobs jobs = 1 →
    periodicCheckJobs (alarms.foldl createAlarmJob jobs) = 1 := by
  induction alarms with
  | nil => intro jobs h; exact h
  | cons a as ih =>
    intro jobs h
    rw [List.foldl_cons]
    exact ih (createAlarmJob jobs a) (createAlarmJob_keeps_one jobs a h)

/-- C6: the recurring-alarm check is one process-wide periodic job: once a
`'check alarms'` job exists, `POST /api/alarms` — whose
`agenda.every('1 minute', 'check alarms', data)` upserts on the job name —
does not add another one; across any sequence of creates starting from an
empty job collection exactly one periodic check job exists; and every
`'check alarms'` job present after a create ticks at the `'1 minute'` (60 s)
cadence. -/
theorem createAlarm_single_check_job :
    (∀ (jobs : List AgendaJob) (a : AlarmDoc),
      periodicCheckJobs jobs = 1 →
      periodicCheckJobs (createAlarmJob jobs a) = 1) ∧
    (∀ (a₀ : AlarmDoc) (alarms : List AlarmDoc),
      periodicCheckJobs ((a₀ :: alarms).foldl createAlarmJob []) = 1) ∧
    (∀ (jobs : List AgendaJob) (a : AlarmDoc) (j : AgendaJob),
      j ∈ createAlarmJob jobs a → j.name = "check alarms" →
      j.interval = "1 minute") := by
  refine ⟨createAlarmJob_keeps_one, ?_, ?_⟩
  · intro a₀ alarms
    rw [List.foldl_cons]
    exact foldl_createAlarmJob_one alarms (createAlarmJob [] a₀) (createAlarmJob_base a₀)
  · intro jobs a j hj hname
    unfold createAlarmJob agendaEvery at hj
    cases hany : jobs.any (fun x => x.name == "check alarms") with
    | true =>
      rw [if_pos hany] at hj
      obtain ⟨j₀, hj₀m, hj₀e⟩ := List.mem_map.mp hj
      cases hj₀ : (j₀.name == "check alarms") with
      | true =>
        rw [if_pos hj₀] at hj₀e
        rw [← hj₀e]
      | false =>
        rw [if_neg (by simp [hj₀])] at hj₀e
        rw [← hj₀e] at hname
        rw [hname] at hj₀
        simp at hj₀
    | false =>
      rw [if_neg (by simp [hany])] at hj
      rcases List.mem_append.mp hj with hin | hnew
      · rw [List.any_eq_false] at hany
        have hfalse := hany j hin
        rw [hname] at hfalse
        simp at hfalse
      · rw [List.mem_singleton.mp hnew]

/-- C6 witness: a concrete two-create sequence — the second create leaves the
single check job in place, the fold over both creates yields exactly one
periodic job, and the job a create registers ticks every minute. -/
theorem createAlarm_single_check_job_witness :
    periodicCheckJobs (createAlarmJob (createAlarmJob [] exAlarmLate) exAlarmEarly)
      = 1 ∧
    periodicCheckJobs ((exAlarmLate :: [exAlarmEarly]).foldl createAlarmJob []) = 1 ∧
    ({ name := "check alarms", interval := "1 minute",
       data := { alarmId := exAlarmLate.id, deviceId := exAlarmLate.deviceId,
                 name := exAlarmLate.name, time := exAlarmLate.time,
                 days := exAlarmLate.days,
                 duration := exAlarmLate.duration } } : AgendaJob).interval
      = "1 minute" :=
  ⟨createAlarm_single_check_job.1 (createAlarmJob [] exAlarmLate) exAlarmEarly
     (by decide),
   createAlarm_single_check_job.2.1 exAlarmLate [exAlarmEarly],
   createAlarm_single_check_job.2.2 [] exAlarmLate
     { name := "check alarms", interval := "1 minute",
       data := { alarmId := exAlarmLate.id, deviceId := exAlarmLate.deviceId,
                 name := exAlarmLate.name, time := exAlarmLate.time,
                 days := exAlarmLate.days, duration := exAlarmLate.duration } }
     (by decide) rfl⟩
